import Mathlib

/-!
# Verification of the Dutch Bros order-resolution pipeline

Shallow embedding of the order-resolution core of the repository
(`src/backend/order_builder.py`, `src/backend/fuzzy_matcher.py`,
`src/backend/product_variations.py`, `src/backend/production_entity_extractor.py`,
`src/backend/api_pipeline.py`).

Conventions of the embedding:
* Python floats are modelled as exact rationals (`ℚ`); every monetary constant in
  the source (5.50, 0.50, ...) is exactly representable, and `round(x, 2)` is
  modelled as rounding to an integer number of cents.
* Python `None` / missing dict keys become `Option`; Python truthiness of strings
  (`x or y`) is modelled explicitly (empty string and `None` are falsy).
* The neural pieces (sentence-transformer cosine similarities, fuzzywuzzy string
  ratios) are opaque numeric inputs: the matcher is parameterised by the per-product
  `semantic` and `fuzzy` score lists, exactly as `FuzzyMenuMatcher.match` consumes
  them after computing them.
-/

namespace DutchBros

/-- `round(x, 2)` of CPython, on exact rationals: round to an integer number of
cents.  (All values any claim evaluates this at are exact multiples of 1/100, so
the tie-breaking rule — half-even in CPython, half-up here — never fires, and
binary floating point introduces no error at these magnitudes.) -/
def round2 (x : ℚ) : ℚ := ((100 * x + 1/2).floor : ℚ) / 100

/-- Substring test on character lists: Python's `needle in hay`. -/
def infixOf (needle : List Char) : List Char → Bool
  | [] => needle.isEmpty
  | c :: t => needle.isPrefixOf (c :: t) || infixOf needle t

/-- Python `needle in hay` on strings. -/
def strContains (hay needle : String) : Bool := infixOf needle.data hay.data

/-- Python `s.lower()` (ASCII, the only alphabet in this repository's data). -/
def lowerStr (s : String) : String := ⟨s.data.map Char.toLower⟩

/-- Python `s.strip()`: drop leading and trailing whitespace. -/
def trimStr (s : String) : String :=
  ⟨((s.data.dropWhile Char.isWhitespace).reverse.dropWhile Char.isWhitespace).reverse⟩

/-- Python `str.title()`: uppercase each letter that follows a non-letter,
lowercase the other letters. -/
def titleCaseGo : Bool → List Char → List Char
  | _, [] => []
  | atStart, c :: t =>
    if c.isAlpha then (if atStart then c.toUpper else c.toLower) :: titleCaseGo false t
    else c :: titleCaseGo true t

/-- Python `s.title()`. -/
def titleCase (s : String) : String := ⟨titleCaseGo true s.data⟩

/-- Worker for Python `s.split()`: accumulate the current word (reversed), break
on whitespace, drop empty runs. -/
def chopWords : List Char → List Char → List String
  | [], acc => if acc.isEmpty then [] else [⟨acc.reverse⟩]
  | c :: t, acc =>
    if c.isWhitespace then
      if acc.isEmpty then chopWords t [] else (⟨acc.reverse⟩ : String) :: chopWords t []
    else chopWords t (c :: acc)

/-- Python `s.split()` with no argument: whitespace-separated words, empties
dropped. -/
def pyWords (s : String) : List String := chopWords s.data []

/-- Python `a or b` for string-valued dict lookups: `None` and `""` are falsy. -/
def orElseStr (a : Option String) (b : String) : String :=
  match a with
  | none => b
  | some s => if s = "" then b else s

/-- Python `str(x)` for an optional string (`str(None) = "None"`). -/
def pyStr : Option String → String
  | none => "None"
  | some s => s

/-- Python `a or b` for numeric dict lookups: `None` and `0` are falsy. -/
def orElseQ (a b : Option ℚ) : Option ℚ :=
  match a with
  | none => b
  | some x => if x = 0 then b else some x

/-! ## Catalog data model (`menu.json` product dicts as consumed by the core) -/

/-- One entry of a `variants` / `options` / `items` list inside a product dict
(`OrderBuilder._infer_base_price`, step 3). -/
structure Variant where
  size : Option String
  name : Option String
  price : Option ℚ
  deriving Repr, DecidableEq

/-- A catalog product dict, restricted to the keys the order-resolution core
reads.  Missing keys are `none`. -/
structure Product where
  name : Option String
  chainproductid : Option String
  price : Option ℚ
  cost : Option ℚ
  prices : Option (List (String × ℚ))
  size_prices : Option (List (String × ℚ))
  price_by_size : Option (List (String × ℚ))
  variants : Option (List Variant)
  options : Option (List Variant)
  items : Option (List Variant)
  deriving Repr, DecidableEq

instance : Inhabited Product :=
  ⟨{ name := none, chainproductid := none, price := none, cost := none,
     prices := none, size_prices := none, price_by_size := none,
     variants := none, options := none, items := none }⟩

/-- An option inside a modifier group of a product's modifier schema. -/
structure ModOption where
  id : Option String
  name : Option String
  price_adjustment : ℚ
  deriving Repr, DecidableEq

/-- A modifier group (`modifiers_data["groups"][i]`). -/
structure ModGroup where
  id : Option String
  options : List ModOption
  deriving Repr, DecidableEq

/-- The modifier schema returned by `MenuLoader.get_modifiers_for_product`. -/
structure ModifiersData where
  groups : List ModGroup
  deriving Repr, DecidableEq

/-! ## Order builder (`src/backend/order_builder.py`) -/

/-- An item handed to `OrderBuilder.build_order` by the pipeline
(the `matched_items` dicts; unmatched pipeline items carry `product = None`). -/
structure InputItem where
  product : Option Product
  product_id : Option String
  product_name : Option String
  base_price : Option ℚ
  size : Option String
  temperature : Option String
  modifiers : List String
  quantity : ℕ
  original_query : String
  suggestions : List String
  match_confidence : ℚ
  deriving Repr, DecidableEq

/-- A child modifier line built by `OrderBuilder._build_modifier_item`
(restricted to the fields the claims read). -/
structure ModifierLine where
  name : String
  modifier_group : Option String
  unit_price : ℚ
  deriving Repr, DecidableEq

/-- The `pricing_breakdown` sub-dict of a matched order line. -/
structure Breakdown where
  base_price : ℚ
  size_adjustment : ℚ
  modifiers_total : ℚ
  total : ℚ
  deriving Repr, DecidableEq

/-- An order line item as built by `OrderBuilder._build_order_item`
(`item_id`/`image_url`/`display_order` plumbing omitted; metadata flattened). -/
structure OrderItem where
  product_id : Option String
  name : String
  category : String
  quantity : ℕ
  unit_price : ℚ
  size : Option String
  temperature : Option String
  child_items : List ModifierLine
  pricing_breakdown : Option Breakdown
  meta_status : Option String
  meta_original_query : Option String
  meta_suggestions : List String
  meta_match_confidence : ℚ
  needs_clarification : List String
  deriving Repr, DecidableEq

/-- The order dict returned by `OrderBuilder.build_order` (fields the claims read). -/
structure Order where
  items : List OrderItem
  subtotal : ℚ
  total : ℚ
  item_count : ℕ
  deriving Repr, DecidableEq

/-- `OrderBuilder._get_size_price`, schema branch: scan the groups with id
`"size"`, return the `price_adjustment` of the first option whose lowercased id
equals the lowercased size token. -/
def sizeOptionLookup (s : String) (groups : List ModGroup) : Option ℚ :=
  groups.findSome? fun g =>
    if g.id = some "size" then
      g.options.findSome? fun o =>
        if lowerStr (o.id.getD "") = lowerStr s then some o.price_adjustment else none
    else none

/-- Fallback size price table of `OrderBuilder._get_size_price`
(`{"small": 0.0, "medium": 0.50, "large": 1.00, "kids": -0.50}`, `.get` default 0). -/
def fallbackSizePrice (sl : String) : ℚ :=
  if sl = "small" then 0
  else if sl = "medium" then 1/2
  else if sl = "large" then 1
  else if sl = "kids" then -1/2
  else 0

/-- `OrderBuilder._get_size_price`.  `if not size: return 0.0` covers a missing
size and the empty string. -/
def getSizePrice (size : Option String) (md : Option ModifiersData) : ℚ :=
  match size with
  | none => 0
  | some s =>
    if s = "" then 0
    else
      match md with
      | some d =>
        match sizeOptionLookup s d.groups with
        | some p => p
        | none => fallbackSizePrice (lowerStr s)
      | none => fallbackSizePrice (lowerStr s)

/-- Fallback modifier price table of `OrderBuilder._build_modifier_item`
(`modifier_prices`; `.get` default 0.50). -/
def fallbackModifierPrice (nl : String) : ℚ :=
  ((([("soft top", (1:ℚ)/2), ("whipped cream", 1/2), ("whip", 1/2),
      ("oat milk", 3/4), ("almond milk", 3/4), ("coconut milk", 3/4),
      ("boba", 3/4), ("caramel drizzle", 1/2), ("chocolate drizzle", 1/2),
      ("extra shot", 1), ("double shot", 2)] : List (String × ℚ)).lookup nl).getD (1/2))

/-- `OrderBuilder._build_modifier_item`: substring match (either direction)
against the schema's option names, else the fallback price table.  The Python
function always returns a dict, never `None`. -/
def buildModifierItem (modifier_name : String) (md : Option ModifiersData) : ModifierLine :=
  let name_l := lowerStr modifier_name
  let schemaHit : Option ModifierLine :=
    match md with
    | some d =>
      d.groups.findSome? fun g =>
        g.options.findSome? fun o =>
          let option_name := lowerStr (o.name.getD "")
          if strContains option_name name_l || strContains name_l option_name then
            some { name := o.name.getD "", modifier_group := g.id,
                   unit_price := o.price_adjustment }
          else none
    | none => none
  match schemaHit with
  | some m => m
  | none =>
    { name := titleCase modifier_name, modifier_group := some "custom",
      unit_price := fallbackModifierPrice name_l }

/-- Total of the child-modifier prices accumulated by the loop in
`OrderBuilder._build_order_item`. -/
def itemModifiersTotal (mods : List String) (md : Option ModifiersData) : ℚ :=
  (mods.map fun m => (buildModifierItem m md).unit_price).sum

/-- Association-list read of a Python `dict[str, float].get` probe. -/
def priceMapGet (m : List (String × ℚ)) (k : String) : Option ℚ :=
  (m.find? fun kv => kv.1 = k).map Prod.snd

/-- Step 2 of `OrderBuilder._infer_base_price`: probe one size→price map by the
exact size, its lowercasing, and its title-casing, chained with Python `or`,
accepting only a numeric result `> 0`. -/
def sizeMapProbe (smap : Option (List (String × ℚ))) (size : Option String) : Option ℚ :=
  match smap, size with
  | some m, some s =>
    if s = "" then none
    else
      match orElseQ (priceMapGet m s)
              (orElseQ (priceMapGet m (lowerStr s)) (priceMapGet m (titleCase s))) with
      | some p => if 0 < p then some p else none
      | none => none
  | _, _ => none

/-- Step 3 of `OrderBuilder._infer_base_price`: first variant record whose
`size`/`name` text contains the size token (or any record when no size was
given) and whose price is `> 0`. -/
def variantProbe (variants : Option (List Variant)) (size : Option String) : Option ℚ :=
  match variants with
  | none => none
  | some vs =>
    vs.findSome? fun v =>
      let s := lowerStr (orElseStr v.size (orElseStr v.name ""))
      let sizeOk :=
        match size with
        | none => true
        | some sz => if sz = "" then true else strContains s (lowerStr sz)
      match v.price with
      | some vp => if sizeOk && 0 < vp then some vp else none
      | none => none

/-- Steps 2–4 of `OrderBuilder._infer_base_price`: the three size→price maps,
then the three variant lists, then the fixed 5.50 default. -/
def inferBasePriceSteps (p : Product) (size : Option String) : ℚ :=
  match ([p.prices, p.size_prices, p.price_by_size].findSome? (sizeMapProbe · size)) with
  | some pr => pr
  | none =>
    match ([p.variants, p.options, p.items].findSome? (variantProbe · size)) with
    | some pr => pr
    | none => 11/2

/-- `OrderBuilder._infer_base_price`: flat numeric price field when `> 0`, else
the remaining chain.  (The leading `if not product` guard is unreachable from
`_build_order_item`, which only calls this with a product present.) -/
def inferBasePrice (p : Product) (size : Option String) : ℚ :=
  match p.price with
  | some pr => if 0 < pr then pr else inferBasePriceSteps p size
  | none => inferBasePriceSteps p size

/-- Base-price resolution at `order_builder.py:109-114`: use the item's own
`base_price` when it is a number `> 0`, else the inference chain's value
(passed here already computed, so the independence from it is visible). -/
def resolveBasePrice (inferred : ℚ) : Option ℚ → ℚ
  | none => inferred
  | some b => if b ≤ 0 then inferred else b

/-- `OrderBuilder._needs_clarification`: Python truthiness on the size and
temperature fields. -/
def needsClarification (size temperature : Option String) : List String :=
  (if size = none ∨ size = some "" then ["size"] else []) ++
    (if temperature = none ∨ temperature = some "" then ["temperature"] else [])

/-- `OrderBuilder._build_order_item`.  `getModifiers` stands for
`self.menu_loader.get_modifiers_for_product`. -/
def buildOrderItem (getModifiers : String → Option ModifiersData) (item : InputItem) :
    OrderItem :=
  match item.product with
  | none =>
    { product_id := none,
      name := orElseStr item.product_name "Unknown Product",
      category := "unknown",
      quantity := item.quantity,
      unit_price := 0,
      size := item.size,
      temperature := item.temperature,
      child_items := [],
      pricing_breakdown := none,
      meta_status := some "requires_manual_selection",
      meta_original_query := some item.original_query,
      meta_suggestions := item.suggestions,
      meta_match_confidence := 0,
      needs_clarification := [] }
  | some p =>
    let product_id := orElseStr item.product_id (orElseStr p.chainproductid "")
    let product_name := orElseStr item.product_name (orElseStr p.name "Unknown Item")
    let md := getModifiers product_id
    let size_price := getSizePrice item.size md
    let child_items := item.modifiers.map (buildModifierItem · md)
    let modifier_total := itemModifiersTotal item.modifiers md
    let base_price := resolveBasePrice (inferBasePrice p item.size) item.base_price
    let unit_price := base_price + size_price + modifier_total
    { product_id := some product_id,
      name := product_name,
      category := "drink",
      quantity := item.quantity,
      unit_price := round2 unit_price,
      size := item.size,
      temperature := item.temperature,
      child_items := child_items,
      pricing_breakdown := some
        { base_price := round2 base_price,
          size_adjustment := round2 size_price,
          modifiers_total := round2 modifier_total,
          total := round2 unit_price },
      meta_status := none,
      meta_original_query := none,
      meta_suggestions := [],
      meta_match_confidence := item.match_confidence,
      needs_clarification := needsClarification item.size item.temperature }

/-- `OrderBuilder.build_order`.  The Python loop keeps every `_build_order_item`
result (`if order_item:` is always true: the returned dicts are non-empty), so
the item list is a plain map. -/
def buildOrder (getModifiers : String → Option ModifiersData)
    (matched_items : List InputItem) : Order :=
  let order_items := matched_items.map (buildOrderItem getModifiers)
  let subtotal := (order_items.map fun it => it.unit_price * (it.quantity : ℚ)).sum
  { items := order_items,
    subtotal := round2 subtotal,
    total := round2 subtotal,
    item_count := order_items.length }

/-! ## Product variations (`src/backend/product_variations.py`) and the fuzzy
matcher (`src/backend/fuzzy_matcher.py`) -/

/-- `UNKNOWN_PRODUCTS` of `product_variations.py`: known-nonexistent phrases with
their suggestion lists. -/
def UNKNOWN_PRODUCTS : List (String × List String) :=
  [("not so hot", ["hot cocoa", "build your own: hot cocoa", "zero sugar added hot cocoa"]),
   ("nsh", ["hot cocoa", "build your own: hot cocoa"])]

/-- The `self.nicknames` table built in `FuzzyMenuMatcher.__init__`. -/
def nicknames : List (String × String) :=
  [("rainbro", "rainbro rebel"),
   ("rainbow", "rainbro rebel"),
   ("double rainbro", "double rainbro rebel"),
   ("colon eagle", "golden eagle"),
   ("wc mocha", "white mocha"),
   ("white chocolate mocha", "white mocha"),
   ("hot white chocolate mocha", "white mocha"),
   ("carmelizer", "caramelizer")]

/-- `query.lower().strip()` as performed at the top of `match` / `match_best`. -/
def pyNormQuery (q : String) : String := trimStr (lowerStr q)

/-- Nickname substitution in `FuzzyMenuMatcher.match`. -/
def resolveNickname (ql : String) : String := ((nicknames.lookup ql).getD ql)

/-- The color-contradiction penalty of `FuzzyMenuMatcher.match` for one product
name: the `white`-in-query block writes −1.0 / −0.8, then the `dark`-in-query
block overwrites with −1.0 when the name contains `white`. -/
def colorPenalty (queryWords : List String) (product_name : String) : ℚ :=
  let p : ℚ :=
    if queryWords.contains "white" then
      if strContains (lowerStr product_name) "dark" then -1
      else if strContains (lowerStr product_name) "double chocolate" then -4/5
      else 0
    else 0
  if queryWords.contains "dark" && strContains (lowerStr product_name) "white" then -1
  else p

/-- The blended score of product index `i`:
`0.6 * semantic_scores + 0.4 * fuzzy_scores + color_penalty`.  The semantic and
fuzzy score arrays are the opaque numeric inputs the source computes from the
embedding model and fuzzywuzzy. -/
def scoreAt (sem fuzz : List ℚ) (queryWords : List String) (names : List String)
    (i : ℕ) : ℚ :=
  3/5 * sem.getD i 0 + 2/5 * fuzz.getD i 0 + colorPenalty queryWords (names.getD i "")

/-- Stable ascending insertion into a key-sorted index list (equal keys: the new,
earlier-input index goes first). -/
def insertAsc (key : ℕ → ℚ) (i : ℕ) : List ℕ → List ℕ
  | [] => [i]
  | j :: t => if key i ≤ key j then i :: j :: t else j :: insertAsc key i t

/-- Stable ascending sort by key: the deterministic semantics of
`np.argsort(combined_scores)` (ascending; ties keep input order). -/
def sortAsc (key : ℕ → ℚ) : List ℕ → List ℕ
  | [] => []
  | x :: xs => insertAsc key x (sortAsc key xs)

/-- `np.argsort(combined_scores)[::-1][:top_k]`: ascending argsort over all
indices, reversed, truncated to `top_k`. -/
def topIndices (key : ℕ → ℚ) (n top_k : ℕ) : List ℕ :=
  ((sortAsc key (List.range n)).reverse).take top_k

/-- One entry of `FuzzyMenuMatcher.match`'s result list. -/
structure MatchEntry where
  product : Product
  product_name : Option String
  product_id : Option String
  similarity : ℚ
  semantic_score : ℚ
  fuzzy_score : ℚ
  base_price : ℚ
  deriving Repr, DecidableEq

/-- The loop body of `FuzzyMenuMatcher.match` over one candidate index: bounds
check (`if idx >= len(self.products): continue`), threshold filter
(`if score < threshold: continue`), then the match dict. -/
def matchEntryAt (products : List Product) (key : ℕ → ℚ) (sem fuzz : List ℚ)
    (threshold : ℚ) (idx : ℕ) : Option MatchEntry :=
  if products.length ≤ idx then none
  else if key idx < threshold then none
  else
    let p := products.getD idx default
    some { product := p,
           product_name := p.name,
           product_id := p.chainproductid,
           similarity := key idx,
           semantic_score := sem.getD idx 0,
           fuzzy_score := fuzz.getD idx 0,
           base_price := p.cost.getD 0 }

/-- `FuzzyMenuMatcher.match`.  `products` is `self.products`, `names` is
`self.product_names` (lowercased at embedding-build time), `sem`/`fuzz` the
per-product semantic and fuzzy score arrays.  The empty-names case models the
`self.embeddings is None or len(self.product_names) == 0` guard. -/
def matchQuery (products : List Product) (names : List String) (sem fuzz : List ℚ)
    (query : String) (top_k : ℕ) (threshold : ℚ) : List MatchEntry :=
  if query = "" then []
  else if names = [] then []
  else
    let key := scoreAt sem fuzz (pyWords (resolveNickname (pyNormQuery query))) names
    (topIndices key names.length top_k).filterMap
      (matchEntryAt products key sem fuzz threshold)

/-- The dict returned by `FuzzyMenuMatcher.match_best` (`exists` spelled
`product_exists`). -/
structure MatchBestResult where
  product : Option Product
  product_name : Option String
  product_id : Option String
  similarity : ℚ
  product_exists : Bool
  suggestions : List String
  original_query : String
  deriving Repr, DecidableEq

/-- Default of the `threshold` parameter in the `def match_best(self, query,
threshold=0.5)` signature. -/
def matchBestDefaultThreshold : ℚ := 1/2

/-- Default of the `threshold` parameter in the `def match(self, query, top_k=5,
threshold=0.5)` signature. -/
def matchDefaultThreshold : ℚ := 1/2

/-- `FuzzyMenuMatcher.match_best`: known-nonexistent check first (the
`UNKNOWN_PRODUCTS` import always succeeds in this repository), then
`match(query, top_k=1, threshold=threshold)`. -/
def matchBest (products : List Product) (names : List String) (sem fuzz : List ℚ)
    (query : String) (threshold : ℚ) : Option MatchBestResult :=
  match UNKNOWN_PRODUCTS.lookup (pyNormQuery query) with
  | some suggs =>
    some { product := none, product_name := some query, product_id := none,
           similarity := 0, product_exists := false, suggestions := suggs,
           original_query := query }
  | none =>
    match matchQuery products names sem fuzz query 1 threshold with
    | [] => none
    | e :: _ =>
      some { product := some e.product, product_name := e.product_name,
             product_id := e.product_id, similarity := e.similarity,
             product_exists := true, suggestions := [], original_query := query }

/-! ## Entity normalizer (`src/backend/production_entity_extractor.py`) -/

/-- A raw candidate item dict as parsed from the language model's JSON (any
subset of the field-name variants may be present). -/
structure RawItem where
  product : Option String
  product_name : Option String
  size : Option String
  temp : Option String
  temperature : Option String
  mods : Option (List String)
  modifiers : Option (List String)
  qty : Option ℕ
  quantity : Option ℕ
  deriving Repr, DecidableEq

/-- The normalized item record produced by
`ProductionEntityExtractor._normalize_item` (with `confidence` overwritten by
`_calculate_confidence` in `_validate_and_score`). -/
structure NormItem where
  product_hint : String
  size : Option String
  temperature : Option String
  modifiers : List String
  quantity : ℕ
  confidence : ℚ
  deriving Repr, DecidableEq

/-- Python `a or b` where both sides are optional strings. -/
def pyOrOptStr (a b : Option String) : Option String :=
  match a with
  | none => b
  | some s => if s = "" then b else some s

/-- Python `a or b` for an optional list against a default list. -/
def pyOrList (a : Option (List String)) (b : List String) : List String :=
  match a with
  | none => b
  | some l => if l = [] then b else l

/-- Python `a or b` for an optional positive count against a default. -/
def pyOrNat (a : Option ℕ) (b : ℕ) : ℕ :=
  match a with
  | none => b
  | some n => if n = 0 then b else n

/-- `if x in ['null', None, '']: x = None` — the null-cleaning of the size and
temperature fields. -/
def cleanNullToken (x : Option String) : Option String :=
  match x with
  | none => none
  | some v => if v = "null" ∨ v = "" then none else some v

/-- The temperature-cleaning block of `_normalize_item` (lines 256–261 of
`production_entity_extractor.py`), applied to the null-cleaned temperature and
the modifier list:

    if temp == 'blended' or 'blended' in str(temp): temp = 'blended'
    elif temp == 'double blended':
        temp = 'blended'
        if 'double blended' not in mods: mods.append('double blended')
-/
def cleanTemperature (temp : Option String) (mods : List String) :
    Option String × List String :=
  if temp = some "blended" || strContains (pyStr temp) "blended" then
    (some "blended", mods)
  else if temp = some "double blended" then
    (some "blended", if mods.contains "double blended" then mods else mods ++ ["double blended"])
  else (temp, mods)

/-- The `nickname_map` inside `_normalize_item`. -/
def extractorNicknames : List (String × String) :=
  [("rainbro", "rainbow rebel"),
   ("rainbow", "rainbow rebel"),
   ("double rainbro", "rainbow rebel"),
   ("double rainbow", "rainbow rebel"),
   ("wc mocha", "white chocolate mocha"),
   ("nsh", "not so hot")]

/-- `ProductionEntityExtractor._normalize_item`. -/
def normalizeItem (item : RawItem) : NormItem :=
  let product0 := orElseStr item.product (item.product_name.getD "")
  let size := cleanNullToken item.size
  let temp0 := cleanNullToken (pyOrOptStr item.temp item.temperature)
  let mods0 := pyOrList item.mods (item.modifiers.getD [])
  let qty := pyOrNat item.qty (item.quantity.getD 1)
  let tm := cleanTemperature temp0 mods0
  let product1 := trimStr (lowerStr product0)
  let product := (extractorNicknames.lookup product1).getD product1
  { product_hint := product,
    size := size,
    temperature := tm.1,
    modifiers := tm.2,
    quantity := qty,
    confidence := 1 }

/-- The `false_positives` stoplist of `_is_valid_item`. -/
def falsePositives : List String :=
  ["thank", "please", "awesome", "great", "good", "fun", "course"]

/-- `ProductionEntityExtractor._is_valid_item` on the fields it reads: the
product phrase and the computed confidence. -/
def isValidItem (product : String) (confidence : ℚ) : Bool :=
  if product = "" ∨ product.length < 3 then false
  else if falsePositives.contains product then false
  else if confidence < 2/5 then false
  else true

/-- The admission filter of `ProductionEntityExtractor._validate_and_score`:
of the normalized, confidence-scored records, exactly those passing
`_is_valid_item` are appended to `validated`. -/
def validateFilter (items : List NormItem) : List NormItem :=
  items.filter fun it => isValidItem it.product_hint it.confidence

/-! ## Pipeline glue (`src/backend/api_pipeline.py`) -/

/-- The matched-item dict built for each successful `match_best` result in
`APIPipeline.process_audio` (lines 86–101) and, with the same fields,
`APIPipeline.process_text` (lines 220–235).  `base_price` is the literal
`5.50`. -/
def mkPipelineMatchedItem (extracted : NormItem) (m : MatchBestResult) : InputItem :=
  { product := m.product,
    product_id := m.product_id,
    product_name := m.product_name,
    base_price := some (11/2),
    size := extracted.size,
    temperature := extracted.temperature,
    modifiers := extracted.modifiers,
    quantity := extracted.quantity,
    original_query := extracted.product_hint,
    suggestions := m.suggestions,
    match_confidence := m.similarity }

/-! ## Spec-side and concrete auxiliary definitions -/

/-- The contradiction-penalty clauses as the spec states them, amended minimally:
the clauses are ordered, with the dark-in-query/white-in-name rule applied last
and overriding the white-in-query rules (as the second overwrite loop in
`FuzzyMenuMatcher.match` does). -/
def amendedPenalty (queryWords : List String) (product_name : String) : ℚ :=
  if queryWords.contains "dark" && strContains (lowerStr product_name) "white" then -1
  else if queryWords.contains "white" && strContains (lowerStr product_name) "dark" then -1
  else if queryWords.contains "white"
      && strContains (lowerStr product_name) "double chocolate" then -4/5
  else 0

/-- The strict lexicographic order (key ascending, then index ascending) that a
stable ascending argsort of an index-ascending input realises. -/
def lexLt (key : ℕ → ℚ) (i j : ℕ) : Prop := key i < key j ∨ (key i = key j ∧ i < j)

/-- A concrete catalog product (the menu's Golden Eagle, with no price data,
forcing the supplied base price to be used). -/
def demoC1Product : Product :=
  { name := some "golden eagle", chainproductid := some "729771", price := none,
    cost := none, prices := none, size_prices := none, price_by_size := none,
    variants := none, options := none, items := none }

/-- The matched item of the spec's price-composition example: base 5.50, size
medium, single modifier "soft top", quantity 2. -/
def demoC1Item : InputItem :=
  { product := some demoC1Product, product_id := none, product_name := none,
    base_price := some (11/2), size := some "medium", temperature := some "iced",
    modifiers := ["soft top"], quantity := 2, original_query := "golden eagle",
    suggestions := [], match_confidence := 0 }

/-- First product of a two-product catalog used to exhibit tie-breaking. -/
def tieProductA : Product :=
  { name := some "aaa", chainproductid := some "1", price := none, cost := none,
    prices := none, size_prices := none, price_by_size := none,
    variants := none, options := none, items := none }

/-- Second product of a two-product catalog used to exhibit tie-breaking. -/
def tieProductB : Product :=
  { name := some "bbb", chainproductid := some "2", price := none, cost := none,
    prices := none, size_prices := none, price_by_size := none,
    variants := none, options := none, items := none }

/-- A raw candidate item whose temperature field is spelled `"double blended"`,
with no modifiers. -/
def rawDoubleBlended : RawItem :=
  { product := some "rainbow rebel", product_name := none, size := none,
    temp := some "double blended", temperature := none, mods := none,
    modifiers := none, qty := none, quantity := none }

/-- An unmatched pipeline item (no catalog product) with a suggestion list. -/
def demoUnmatchedItem : InputItem :=
  { product := none, product_id := none, product_name := some "not so hot",
    base_price := none, size := some "kids", temperature := none,
    modifiers := ["whip"], quantity := 1, original_query := "not so hot",
    suggestions := ["hot cocoa"], match_confidence := 0 }

/-! ## Helper lemmas -/

/-- `Rat.floor` agrees with the `FloorRing` floor. -/
theorem ratFloor_eq_intFloor (q : ℚ) : q.floor = ⌊q⌋ := by
  rw [Rat.floor_def', Rat.floor_def]

/-- Evaluate `round2` at an exact multiple of a cent. -/
theorem round2_eval (x : ℚ) (k : ℤ) (h : 100 * x = (k : ℚ)) : round2 x = (k : ℚ) / 100 := by
  unfold round2
  rw [ratFloor_eq_intFloor]
  have hf : ⌊100 * x + 1/2⌋ = k := by
    rw [h, Int.floor_eq_iff]
    constructor
    · linarith
    · linarith
  rw [hf]

/-- `round2` fixes every exact multiple of a cent. -/
theorem round2_fix (x : ℚ) (k : ℤ) (h : 100 * x = (k : ℚ)) : round2 x = x := by
  have hx : x = (k : ℚ) / 100 := by linarith
  rw [round2_eval x k h, ← hx]

theorem mem_insertAsc (key : ℕ → ℚ) (x a : ℕ) :
    ∀ l : List ℕ, a ∈ insertAsc key x l ↔ a = x ∨ a ∈ l := by
  intro l
  induction l with
  | nil => simp [insertAsc]
  | cons j t ih =>
    by_cases h : key x ≤ key j
    · simp [insertAsc, h, List.mem_cons]
    · simp only [insertAsc, if_neg h, List.mem_cons, ih]
      tauto

theorem mem_sortAsc (key : ℕ → ℚ) (a : ℕ) :
    ∀ l : List ℕ, a ∈ sortAsc key l ↔ a ∈ l := by
  intro l
  induction l with
  | nil => simp [sortAsc]
  | cons x t ih => simp [sortAsc, mem_insertAsc, ih]

theorem insertAsc_pairwise (key : ℕ → ℚ) (x : ℕ) :
    ∀ l : List ℕ, l.Pairwise (lexLt key) → (∀ y ∈ l, x < y) →
      (insertAsc key x l).Pairwise (lexLt key) := by
  intro l
  induction l with
  | nil => intro _ _; simp [insertAsc]
  | cons j t ih =>
    intro hp hx
    rw [List.pairwise_cons] at hp
    obtain ⟨hjt, hpt⟩ := hp
    by_cases h : key x ≤ key j
    · simp only [insertAsc, if_pos h]
      refine List.Pairwise.cons ?_ (List.Pairwise.cons hjt hpt)
      intro y hy
      rcases List.mem_cons.mp hy with rfl | hyt
      · rcases lt_or_eq_of_le h with hlt | heq
        · exact Or.inl hlt
        · exact Or.inr ⟨heq, hx y (List.mem_cons_self _ _)⟩
      · have hjy : key j ≤ key y := by
          rcases hjt y hyt with hlt | ⟨heq, _⟩
          · exact le_of_lt hlt
          · exact le_of_eq heq
        rcases lt_or_eq_of_le (le_trans h hjy) with hlt | heq
        · exact Or.inl hlt
        · exact Or.inr ⟨heq, hx y (List.mem_cons_of_mem _ hyt)⟩
    · simp only [insertAsc, if_neg h]
      refine List.Pairwise.cons ?_ (ih hpt fun y hy => hx y (List.mem_cons_of_mem _ hy))
      intro y hy
      rcases (mem_insertAsc key x y t).mp hy with rfl | hyt
      · exact Or.inl (lt_of_not_le h)
      · exact hjt y hyt

theorem sortAsc_pairwise (key : ℕ → ℚ) :
    ∀ l : List ℕ, l.Pairwise (· < ·) → (sortAsc key l).Pairwise (lexLt key) := by
  intro l
  induction l with
  | nil => intro _; simp [sortAsc]
  | cons x t ih =>
    intro hp
    rw [List.pairwise_cons] at hp
    exact insertAsc_pairwise key x _ (ih hp.2) fun y hy => hp.1 y ((mem_sortAsc key y t).mp hy)

/-- Every index produced by `topIndices` is a valid index below `n`. -/
theorem mem_topIndices_lt (key : ℕ → ℚ) (n top_k i : ℕ)
    (h : i ∈ topIndices key n top_k) : i < n := by
  have h1 : i ∈ (sortAsc key (List.range n)).reverse :=
    (List.take_subset _ _) h
  rw [List.mem_reverse] at h1
  exact List.mem_range.mp ((mem_sortAsc key i _).mp h1)

/-- The ranking order produced by `topIndices`: later entries have strictly
smaller score, or the same score and a smaller catalog index. -/
theorem topIndices_pairwise (key : ℕ → ℚ) (n top_k : ℕ) :
    (topIndices key n top_k).Pairwise
      (fun i j => key j < key i ∨ (key i = key j ∧ j < i)) := by
  have h1 : (sortAsc key (List.range n)).Pairwise (lexLt key) :=
    sortAsc_pairwise key _ (List.pairwise_lt_range n)
  have h2 : (sortAsc key (List.range n)).reverse.Pairwise (fun i j => lexLt key j i) :=
    List.pairwise_reverse.mpr h1
  have h3 := List.Pairwise.sublist (List.take_sublist top_k _) h2
  refine h3.imp ?_
  intro i j hij
  rcases hij with hlt | ⟨heq, hji⟩
  · exact Or.inl hlt
  · exact Or.inr ⟨heq.symm, hji⟩

theorem matchEntryAt_some (products : List Product) (key : ℕ → ℚ) (sem fuzz : List ℚ)
    (threshold : ℚ) (idx : ℕ) (e : MatchEntry)
    (h : matchEntryAt products key sem fuzz threshold idx = some e) :
    threshold ≤ e.similarity ∧ e.similarity = key idx := by
  unfold matchEntryAt at h
  by_cases h1 : products.length ≤ idx
  · simp [h1] at h
  · by_cases h2 : key idx < threshold
    · simp [h1, h2] at h
    · simp only [if_neg h1, if_neg h2, Option.some.injEq] at h
      subst h
      exact ⟨le_of_not_lt h2, rfl⟩

theorem matchQuery_cases (products : List Product) (names : List String)
    (sem fuzz : List ℚ) (query : String) (top_k : ℕ) (threshold : ℚ) :
    matchQuery products names sem fuzz query top_k threshold = [] ∨
    matchQuery products names sem fuzz query top_k threshold =
      (topIndices (scoreAt sem fuzz (pyWords (resolveNickname (pyNormQuery query))) names)
          names.length top_k).filterMap
        (matchEntryAt products
          (scoreAt sem fuzz (pyWords (resolveNickname (pyNormQuery query))) names)
          sem fuzz threshold) := by
  unfold matchQuery
  by_cases h1 : query = ""
  · exact Or.inl (by simp [h1])
  · by_cases h2 : names = []
    · exact Or.inl (by simp [h1, h2])
    · exact Or.inr (by simp [h1, h2])

theorem matchQuery_length_le (products : List Product) (names : List String)
    (sem fuzz : List ℚ) (query : String) (top_k : ℕ) (threshold : ℚ) :
    (matchQuery products names sem fuzz query top_k threshold).length ≤ top_k := by
  rcases matchQuery_cases products names sem fuzz query top_k threshold with h | h
  · simp [h]
  · rw [h]
    refine le_trans (List.length_filterMap_le _ _) ?_
    unfold topIndices
    exact le_trans (List.length_take_le _ _) le_rfl

theorem matchQuery_mem_threshold (products : List Product) (names : List String)
    (sem fuzz : List ℚ) (query : String) (top_k : ℕ) (threshold : ℚ) (e : MatchEntry)
    (h : e ∈ matchQuery products names sem fuzz query top_k threshold) :
    threshold ≤ e.similarity := by
  rcases matchQuery_cases products names sem fuzz query top_k threshold with hc | hc
  · rw [hc] at h; simp at h
  · rw [hc] at h
    obtain ⟨idx, _, hsome⟩ := List.mem_filterMap.mp h
    exact (matchEntryAt_some _ _ _ _ _ _ _ hsome).1

theorem matchQuery_pairwise_desc (products : List Product) (names : List String)
    (sem fuzz : List ℚ) (query : String) (top_k : ℕ) (threshold : ℚ) :
    (matchQuery products names sem fuzz query top_k threshold).Pairwise
      (fun e f => f.similarity ≤ e.similarity) := by
  rcases matchQuery_cases products names sem fuzz query top_k threshold with hc | hc
  · rw [hc]; exact List.Pairwise.nil
  · rw [hc]
    refine List.Pairwise.filterMap _ ?_ (topIndices_pairwise _ _ _)
    intro i j hij e he f hf
    have hei := (matchEntryAt_some _ _ _ _ _ _ _ he).2
    have hfj := (matchEntryAt_some _ _ _ _ _ _ _ hf).2
    rw [hei, hfj]
    rcases hij with hlt | ⟨heq, _⟩
    · exact le_of_lt hlt
    · exact le_of_eq heq.symm

theorem matchQuery_eq_nil_of_below (products : List Product) (names : List String)
    (sem fuzz : List ℚ) (query : String) (top_k : ℕ) (threshold : ℚ)
    (h : ∀ i, i < names.length →
      scoreAt sem fuzz (pyWords (resolveNickname (pyNormQuery query))) names i < threshold) :
    matchQuery products names sem fuzz query top_k threshold = [] := by
  rcases matchQuery_cases products names sem fuzz query top_k threshold with hc | hc
  · exact hc
  · rw [hc]
    rw [List.filterMap_eq_nil_iff]
    intro idx hidx
    have hlt := mem_topIndices_lt _ _ _ _ hidx
    unfold matchEntryAt
    by_cases h1 : products.length ≤ idx
    · simp [h1]
    · simp [h1, h idx hlt]

theorem unknownLookup_suggestions_ne_nil (k : String) (sg : List String)
    (h : UNKNOWN_PRODUCTS.lookup k = some sg) : sg ≠ [] := by
  simp only [UNKNOWN_PRODUCTS, List.lookup] at h
  split at h
  · cases h; simp
  · split at h
    · cases h; simp
    · cases h

theorem isValidItem_iff (p : String) (c : ℚ) :
    isValidItem p c = true ↔ 3 ≤ p.length ∧ p ∉ falsePositives ∧ 2/5 ≤ c := by
  unfold isValidItem
  by_cases h1 : p = "" ∨ p.length < 3
  · rw [if_pos h1]
    constructor
    · intro h
      simp at h
    · rintro ⟨hlen, _, _⟩
      exfalso
      rcases h1 with rfl | hlt
      · simp at hlen
      · omega
  · rw [if_neg h1]
    push_neg at h1
    by_cases h2 : falsePositives.contains p = true
    · rw [if_pos h2]
      constructor
      · intro h
        simp at h
      · rintro ⟨_, hmem, _⟩
        exact absurd (List.elem_iff.mp h2) hmem
    · rw [if_neg h2]
      by_cases h3 : c < 2/5
      · rw [if_pos h3]
        constructor
        · intro h
          simp at h
        · rintro ⟨_, _, hc⟩
          exact absurd h3 (not_lt.mpr hc)
      · rw [if_neg h3]
        constructor
        · intro _
          refine ⟨by omega, ?_, le_of_not_lt h3⟩
          intro hmem
          exact h2 (List.elem_iff.mpr hmem)
        · intro _
          rfl

theorem fallbackSizePrice_of_not_mem (x : String)
    (h : x ∉ (["small", "medium", "large", "kids"] : List String)) :
    fallbackSizePrice x = 0 := by
  have h1 : x ≠ "small" := fun he => h (by simp [he])
  have h2 : x ≠ "medium" := fun he => h (by simp [he])
  have h3 : x ≠ "large" := fun he => h (by simp [he])
  have h4 : x ≠ "kids" := fun he => h (by simp [he])
  simp [fallbackSizePrice, h1, h2, h3, h4]

theorem colorPenalty_eq_amendedPenalty (qw : List String) (name : String) :
    colorPenalty qw name = amendedPenalty qw name := by
  unfold colorPenalty amendedPenalty
  by_cases hdq : "dark" ∈ qw <;>
    by_cases hwq : "white" ∈ qw <;>
      by_cases hwn : strContains (lowerStr name) "white" = true <;>
        by_cases hdn : strContains (lowerStr name) "dark" = true <;>
          by_cases hdc : strContains (lowerStr name) "double chocolate" = true <;>
            simp [hdq, hwq, hwn, hdn, hdc]

theorem resolveBasePrice_pos (inferred b : ℚ) (hb : 0 < b) :
    resolveBasePrice inferred (some b) = b := by
  unfold resolveBasePrice
  dsimp only
  rw [if_neg (not_le.mpr hb)]

/-! ## Claims -/

/-- C5: the claim says a temperature spelled "double blended" is rewritten to
`blended` **and** the modifier "double blended" is appended.  The code rewrites
the temperature but never appends the modifier: `'blended' in str(temp)` is true
for `"double blended"`, so the first branch of the cleanup fires and the
`elif temp == 'double blended'` branch (which would append) is unreachable.
This theorem evaluates the normalizer at the failing input. -/
theorem C5_double_blended_eval :
    (normalizeItem rawDoubleBlended).temperature = some "blended" ∧
    (normalizeItem rawDoubleBlended).modifiers = [] ∧
    "double blended" ∉ (normalizeItem rawDoubleBlended).modifiers := by
  refine ⟨by decide, by decide, by decide⟩

/-- C8: the Normalizer's admission filter keeps exactly the items whose product
phrase has at least 3 characters, is not in the conversational-filler stoplist,
and whose computed confidence is at least 0.4. -/
theorem C8_admission_filter :
    ∀ (items : List NormItem) (it : NormItem),
      it ∈ validateFilter items ↔
        it ∈ items ∧ 3 ≤ it.product_hint.length ∧
          it.product_hint ∉ falsePositives ∧ 2/5 ≤ it.confidence := by
  intro items it
  unfold validateFilter
  rw [List.mem_filter, isValidItem_iff]

/-- C10: the size adjustment is exactly 0 when the size is absent, and when the
size token matches neither an option id of a "size" modifier group nor one of
the fallback keys small/medium/large/kids (case-insensitively). -/
theorem C10_size_adjustment_zero :
    ∀ (size : Option String) (md : Option ModifiersData),
      (size = none → getSizePrice size md = 0) ∧
      (∀ s, size = some s →
        (∀ d, md = some d → sizeOptionLookup s d.groups = none) →
        lowerStr s ∉ (["small", "medium", "large", "kids"] : List String) →
        getSizePrice size md = 0) := by
  intro size md
  constructor
  · rintro rfl
    rfl
  · rintro s rfl hschema hfb
    unfold getSizePrice
    dsimp only
    by_cases hs : s = ""
    · rw [if_pos hs]
    · rw [if_neg hs]
      cases md with
      | none => exact fallbackSizePrice_of_not_mem _ hfb
      | some d =>
        dsimp only
        rw [hschema d rfl]
        exact fallbackSizePrice_of_not_mem _ hfb

/-- C10 witness: a size token unknown to both the schema and the fallback table
gets adjustment 0. -/
theorem C10_size_adjustment_zero_witness :
    getSizePrice (some "venti") none = 0 :=
  (C10_size_adjustment_zero (some "venti") none).2 "venti" rfl
    (fun d hd => by cases hd) (by decide)

/-- C2: an input item without a catalog product yields a placeholder line item
(`product_id = none`, `unit_price = 0`, metadata status
`"requires_manual_selection"` carrying the original query and the suggestions),
and no item is ever dropped: the built order holds one line item per input
item. -/
theorem C2_unmatched_placeholder :
    ∀ (gm : String → Option ModifiersData) (items : List InputItem),
      (buildOrder gm items).items = items.map (buildOrderItem gm) ∧
      (buildOrder gm items).items.length = items.length ∧
      (∀ item : InputItem, item ∈ items →
        buildOrderItem gm item ∈ (buildOrder gm items).items) ∧
      (∀ item : InputItem, item.product = none →
        (buildOrderItem gm item).product_id = none ∧
        (buildOrderItem gm item).unit_price = 0 ∧
        (buildOrderItem gm item).meta_status = some "requires_manual_selection" ∧
        (buildOrderItem gm item).meta_original_query = some item.original_query ∧
        (buildOrderItem gm item).meta_suggestions = item.suggestions) := by
  intro gm items
  refine ⟨rfl, by simp [buildOrder], ?_, ?_⟩
  · intro item hmem
    simp only [buildOrder]
    exact List.mem_map_of_mem _ hmem
  · intro item hp
    simp [buildOrderItem, hp]

/-- C2 witness: a concrete unmatched item is kept as a placeholder with the
claimed fields. -/
theorem C2_unmatched_placeholder_witness :
    buildOrderItem (fun _ => none) demoUnmatchedItem ∈
      (buildOrder (fun _ => none) [demoUnmatchedItem]).items ∧
    (buildOrderItem (fun _ => none) demoUnmatchedItem).product_id = none ∧
    (buildOrderItem (fun _ => none) demoUnmatchedItem).unit_price = 0 ∧
    (buildOrderItem (fun _ => none) demoUnmatchedItem).meta_status =
      some "requires_manual_selection" ∧
    (buildOrderItem (fun _ => none) demoUnmatchedItem).meta_original_query =
      some "not so hot" ∧
    (buildOrderItem (fun _ => none) demoUnmatchedItem).meta_suggestions = ["hot cocoa"] := by
  obtain ⟨-, -, hmem, hfields⟩ :=
    C2_unmatched_placeholder (fun _ => none) [demoUnmatchedItem]
  obtain ⟨h1, h2, h3, h4, h5⟩ := hfields demoUnmatchedItem rfl
  exact ⟨hmem demoUnmatchedItem (by simp), h1, h2, h3, h4, h5⟩

/-- C9: both pipeline entry points hand every matched item to the order builder
with `base_price = 5.50`, so the resolved base price of the built line is 5.50
whatever price data the matched product carries; the inference fallback only
runs when the supplied base price is absent or not positive. -/
theorem C9_pipeline_base_price :
    ∀ (ext : NormItem) (m : MatchBestResult) (gm : String → Option ModifiersData)
      (p : Product), m.product = some p →
      (mkPipelineMatchedItem ext m).base_price = some (11/2) ∧
      (buildOrderItem gm (mkPipelineMatchedItem ext m)).pricing_breakdown.map
          Breakdown.base_price = some (11/2) ∧
      (∀ inferred b : ℚ, 0 < b → resolveBasePrice inferred (some b) = b) ∧
      (∀ inferred : ℚ, resolveBasePrice inferred none = inferred) := by
  intro ext m gm p hp
  refine ⟨rfl, ?_, fun i b hb => resolveBasePrice_pos i b hb, fun _ => rfl⟩
  have hbp : resolveBasePrice (inferBasePrice p ext.size) (some (11/2)) = 11/2 :=
    resolveBasePrice_pos _ _ (by norm_num)
  simp only [mkPipelineMatchedItem, buildOrderItem, hp, hbp, Option.map_some',
    Option.some.injEq]
  exact round2_fix _ 550 (by norm_num)

/-- C9 witness: a concrete matched item built by the pipeline carries base
price 5.50 into the order line's pricing breakdown. -/
theorem C9_pipeline_base_price_witness :
    (mkPipelineMatchedItem
        { product_hint := "golden eagle", size := some "medium", temperature := none,
          modifiers := [], quantity := 1, confidence := 1 }
        { product := some default, product_name := some "golden eagle",
          product_id := some "729771", similarity := 1, product_exists := true,
          suggestions := [], original_query := "golden eagle" }).base_price = some (11/2) ∧
    (buildOrderItem (fun _ => none)
        (mkPipelineMatchedItem
          { product_hint := "golden eagle", size := some "medium", temperature := none,
            modifiers := [], quantity := 1, confidence := 1 }
          { product := some default, product_name := some "golden eagle",
            product_id := some "729771", similarity := 1, product_exists := true,
            suggestions := [], original_query := "golden eagle" })).pricing_breakdown.map
        Breakdown.base_price = some (11/2) ∧
    (∀ inferred b : ℚ, 0 < b → resolveBasePrice inferred (some b) = b) ∧
    (∀ inferred : ℚ, resolveBasePrice inferred none = inferred) :=
  C9_pipeline_base_price
    { product_hint := "golden eagle", size := some "medium", temperature := none,
      modifiers := [], quantity := 1, confidence := 1 }
    { product := some default, product_name := some "golden eagle",
      product_id := some "729771", similarity := 1, product_exists := true,
      suggestions := [], original_query := "golden eagle" }
    (fun _ => none) default rfl

/-- C1: a matched line's unit price is the resolved base price plus size
adjustment plus modifier total, rounded to cents; the order's subtotal and total
both equal the rounded sum of `unit_price × quantity` over all lines; and the
spec's example (base 5.50, medium +0.50, "soft top" +0.50, quantity 2) prices at
6.50 per unit and 13.00 in total. -/
theorem C1_price_composition :
    (∀ (gm : String → Option ModifiersData) (items : List InputItem),
      (buildOrder gm items).subtotal =
        round2 (((items.map (buildOrderItem gm)).map
          fun it => it.unit_price * (it.quantity : ℚ)).sum) ∧
      (buildOrder gm items).total = (buildOrder gm items).subtotal) ∧
    (∀ (gm : String → Option ModifiersData) (item : InputItem) (p : Product),
      item.product = some p →
      (buildOrderItem gm item).unit_price =
        round2 (resolveBasePrice (inferBasePrice p item.size) item.base_price
          + getSizePrice item.size
              (gm (orElseStr item.product_id (orElseStr p.chainproductid "")))
          + itemModifiersTotal item.modifiers
              (gm (orElseStr item.product_id (orElseStr p.chainproductid ""))))) ∧
    (buildOrderItem (fun _ => none) demoC1Item).unit_price = 13/2 ∧
    (buildOrder (fun _ => none) [demoC1Item]).subtotal = 13 ∧
    (buildOrder (fun _ => none) [demoC1Item]).total = 13 := by
  have hsz : getSizePrice (some "medium") none = 1/2 := by
    simp [getSizePrice, fallbackSizePrice, lowerStr]
  have hmod : itemModifiersTotal ["soft top"] none = 1/2 := by
    simp [itemModifiersTotal, buildModifierItem, fallbackModifierPrice, lowerStr, List.lookup]
  have hunit : (buildOrderItem (fun _ => none) demoC1Item).unit_price = 13/2 := by
    simp only [buildOrderItem, demoC1Item, resolveBasePrice, hsz, hmod]
    norm_num
    rw [round2_fix _ 650 (by norm_num)]
  have hq : (buildOrderItem (fun _ => none) demoC1Item).quantity = 2 := by
    simp only [buildOrderItem, demoC1Item]
  refine ⟨fun gm items => ⟨rfl, rfl⟩, ?_, hunit, ?_, ?_⟩
  · intro gm item p hp
    obtain ⟨prod, pid, pname, bp, sz, tmp, mods, qty, oq, sug, mc⟩ := item
    cases hp
    rfl
  · simp only [buildOrder, List.map_cons, List.map_nil, List.sum_cons, List.sum_nil,
      hunit, hq]
    rw [round2_eval _ 1300 (by norm_num)]
    norm_num
  · simp only [buildOrder, List.map_cons, List.map_nil, List.sum_cons, List.sum_nil,
      hunit, hq]
    rw [round2_eval _ 1300 (by norm_num)]
    norm_num

/-- C1 witness: the per-item composition rule instantiated at the concrete
example item. -/
theorem C1_price_composition_witness :
    (buildOrderItem (fun _ => none) demoC1Item).unit_price =
      round2 (resolveBasePrice (inferBasePrice demoC1Product demoC1Item.size)
          demoC1Item.base_price
        + getSizePrice demoC1Item.size
            ((fun _ => none)
              (orElseStr demoC1Item.product_id (orElseStr demoC1Product.chainproductid "")))
        + itemModifiersTotal demoC1Item.modifiers
            ((fun _ => none)
              (orElseStr demoC1Item.product_id (orElseStr demoC1Product.chainproductid "")))) :=
  C1_price_composition.2.1 (fun _ => none) demoC1Item demoC1Product rfl

/-- C3 (amended): the blended score is
`0.6 * semantic + 0.4 * lexical + penalty`, where the penalty clauses are
evaluated in order — −1.0 when the query tokens contain "dark" and the name contains
"white" (this rule is applied last and overrides the others); otherwise −1.0
when the tokens contain "white" and the name contains "dark"; otherwise −0.8
when the tokens contain "white" and the name contains "double chocolate";
otherwise 0. -/
theorem C3_blended_score :
    ∀ (sem fuzz : List ℚ) (query : String) (names : List String) (i : ℕ),
      scoreAt sem fuzz (pyWords (resolveNickname (pyNormQuery query))) names i =
        3/5 * sem.getD i 0 + 2/5 * fuzz.getD i 0 +
          amendedPenalty (pyWords (resolveNickname (pyNormQuery query)))
            (names.getD i "") := by
  intro sem fuzz query names i
  unfold scoreAt
  rw [colorPenalty_eq_amendedPenalty]

/-- C3 counterexample: for the query "white dark mocha" (whose tokens contain
"white") against a product named "double chocolate white" (which contains
"double chocolate"), the claim's clause demands a penalty of −0.8, but the code
assigns −1.0: the dark-in-query loop overwrites the −0.8 written by the
white-in-query loop. -/
theorem C3_penalty_counterexample :
    "white" ∈ pyWords (resolveNickname (pyNormQuery "white dark mocha")) ∧
    strContains (lowerStr "double chocolate white") "double chocolate" = true ∧
    colorPenalty (pyWords (resolveNickname (pyNormQuery "white dark mocha")))
        "double chocolate white" = -1 ∧
    (-1 : ℚ) ≠ -4/5 := by
  refine ⟨by decide, by decide, ?_, by norm_num⟩
  have hqw : pyWords (resolveNickname (pyNormQuery "white dark mocha"))
      = ["white", "dark", "mocha"] := by decide
  rw [hqw]
  have h1 : ((["white", "dark", "mocha"] : List String).contains "dark"
      && strContains (lowerStr "double chocolate white") "white") = true := by decide
  unfold colorPenalty
  rw [if_pos h1]

/-- C4: `match_best` returns exactly one of three shapes: no result; a result
with a product, `exists = true` and empty suggestions; or, for a query in the
known-nonexistent table, a product-less result with `exists = false` and that
table's non-empty suggestion list, produced without consulting the catalog or
the scores (the returned value is a constant in them).  The degenerate
`product = null, exists = true` shape never occurs. -/
theorem C4_match_best_shape :
    ∀ (products : List Product) (names : List String) (sem fuzz : List ℚ)
      (query : String) (threshold : ℚ),
      (∀ r, matchBest products names sem fuzz query threshold = some r →
        ((∃ p, r.product = some p) ∧ r.product_exists = true ∧ r.suggestions = []) ∨
        (r.product = none ∧ r.product_exists = false ∧ r.suggestions ≠ [] ∧
          UNKNOWN_PRODUCTS.lookup (pyNormQuery query) = some r.suggestions)) ∧
      (∀ sg, UNKNOWN_PRODUCTS.lookup (pyNormQuery query) = some sg →
        matchBest products names sem fuzz query threshold =
          some { product := none, product_name := some query, product_id := none,
                 similarity := 0, product_exists := false, suggestions := sg,
                 original_query := query }) := by
  intro products names sem fuzz query threshold
  cases hl : UNKNOWN_PRODUCTS.lookup (pyNormQuery query) with
  | some suggs =>
    constructor
    · intro r hr
      unfold matchBest at hr
      rw [hl] at hr
      cases hr
      exact Or.inr ⟨rfl, rfl, unknownLookup_suggestions_ne_nil _ _ hl, rfl⟩
    · intro sg hsg
      cases hsg
      unfold matchBest
      rw [hl]
  | none =>
    constructor
    · intro r hr
      unfold matchBest at hr
      rw [hl] at hr
      cases hm : matchQuery products names sem fuzz query 1 threshold with
      | nil => rw [hm] at hr; cases hr
      | cons e t =>
        rw [hm] at hr
        cases hr
        exact Or.inl ⟨⟨e.product, rfl⟩, rfl, rfl⟩
    · intro sg hsg
      simp at hsg

/-- C4 witness: the query "not so hot" is in the known-nonexistent table and
yields the product-less, `exists = false` result with the table's suggestions,
independently of the catalog (an empty catalog here). -/
theorem C4_match_best_shape_witness :
    matchBest [] [] [] [] "not so hot" (1/2) =
      some { product := none, product_name := some "not so hot", product_id := none,
             similarity := 0, product_exists := false,
             suggestions := ["hot cocoa", "build your own: hot cocoa",
               "zero sugar added hot cocoa"],
             original_query := "not so hot" } :=
  (C4_match_best_shape [] [] [] [] "not so hot" (1/2)).2
    ["hot cocoa", "build your own: hot cocoa", "zero sugar added hot cocoa"]
    (by decide)

/-- C6 (amended): the `threshold` parameter of `match_best` defaults to 0.50
(the pipeline's call sites pass 0.40 explicitly), and for a query outside the
known-nonexistent table, when every catalog product's blended score falls below
the threshold, `match_best` returns `None`. -/
theorem C6_threshold_behavior :
    matchBestDefaultThreshold = 1/2 ∧
    ∀ (products : List Product) (names : List String) (sem fuzz : List ℚ)
      (query : String) (threshold : ℚ),
      UNKNOWN_PRODUCTS.lookup (pyNormQuery query) = none →
      (∀ i, i < names.length →
        scoreAt sem fuzz (pyWords (resolveNickname (pyNormQuery query))) names i
          < threshold) →
      matchBest products names sem fuzz query threshold = none := by
  refine ⟨rfl, ?_⟩
  intro products names sem fuzz query threshold hl hscore
  unfold matchBest
  rw [hl, matchQuery_eq_nil_of_below products names sem fuzz query 1 threshold hscore]

/-- C6 counterexample: the default of `match_best`'s `threshold` parameter is
0.5 in the code, not the claimed 0.40. -/
theorem C6_default_counterexample :
    matchBestDefaultThreshold = 1/2 ∧ matchBestDefaultThreshold ≠ 2/5 :=
  ⟨rfl, by norm_num [matchBestDefaultThreshold]⟩

/-- C6 witness: a query with no catalog score above the threshold yields no
match at all. -/
theorem C6_threshold_behavior_witness :
    matchBest [] ["golden eagle"] [0] [0] "zzz" (1/2) = none := by
  refine C6_threshold_behavior.2 [] ["golden eagle"] [0] [0] "zzz" (1/2) (by decide) ?_
  intro i hi
  have h0 : i = 0 := by
    simpa using hi
  subst h0
  have hcp : colorPenalty (pyWords (resolveNickname (pyNormQuery "zzz")))
      ((["golden eagle"] : List String).getD 0 "") = 0 := by decide
  simp only [scoreAt, hcp]
  norm_num

/-- C7 (amended): `match` returns at most `top_k` entries, all with blended
score at least the threshold, ordered by blended score descending; but any two
products whose blended scores are equal appear in **reverse** catalog insertion
order, because the code reverses a stable ascending argsort
(`np.argsort(...)[::-1]`).  The final conjunct states the ranking order on the
candidate index list: a later entry has a strictly smaller score, or an equal
score and a *smaller* catalog index. -/
theorem C7_ranking :
    ∀ (products : List Product) (names : List String) (sem fuzz : List ℚ)
      (query : String) (top_k : ℕ) (threshold : ℚ),
      (matchQuery products names sem fuzz query top_k threshold).length ≤ top_k ∧
      (matchQuery products names sem fuzz query top_k threshold).Forall
        (fun e => threshold ≤ e.similarity) ∧
      (matchQuery products names sem fuzz query top_k threshold).Pairwise
        (fun e f => f.similarity ≤ e.similarity) ∧
      (topIndices (scoreAt sem fuzz (pyWords (resolveNickname (pyNormQuery query))) names)
          names.length top_k).Pairwise
        (fun i j =>
          scoreAt sem fuzz (pyWords (resolveNickname (pyNormQuery query))) names j <
            scoreAt sem fuzz (pyWords (resolveNickname (pyNormQuery query))) names i ∨
          (scoreAt sem fuzz (pyWords (resolveNickname (pyNormQuery query))) names i =
              scoreAt sem fuzz (pyWords (resolveNickname (pyNormQuery query))) names j ∧
            j < i)) := by
  intro products names sem fuzz query top_k threshold
  refine ⟨matchQuery_length_le products names sem fuzz query top_k threshold, ?_,
    matchQuery_pairwise_desc products names sem fuzz query top_k threshold,
    topIndices_pairwise _ _ _⟩
  exact List.forall_iff_forall_mem.mpr
    (fun e he => matchQuery_mem_threshold products names sem fuzz query top_k threshold e he)

/-- C7 counterexample: a two-product catalog whose products score identically
for the query "ccc".  The claim requires ties in catalog insertion order
(`aaa` before `bbb`), but `match` returns `bbb` before `aaa`. -/
theorem C7_tie_counterexample :
    (matchQuery [tieProductA, tieProductB] ["aaa", "bbb"] [1, 1] [1, 1] "ccc" 5 0).map
        (fun e => e.product_name) = [some "bbb", some "aaa"] ∧
    scoreAt [1, 1] [1, 1] (pyWords (resolveNickname (pyNormQuery "ccc")))
        ["aaa", "bbb"] 0 =
      scoreAt [1, 1] [1, 1] (pyWords (resolveNickname (pyNormQuery "ccc")))
        ["aaa", "bbb"] 1 := by
  have hqw : pyWords (resolveNickname (pyNormQuery "ccc")) = ["ccc"] := by decide
  have hcp0 : colorPenalty ["ccc"] "aaa" = 0 := by decide
  have hcp1 : colorPenalty ["ccc"] "bbb" = 0 := by decide
  have hk0 : scoreAt [1, 1] [1, 1] ["ccc"] ["aaa", "bbb"] 0 = 1 := by
    simp [scoreAt, hcp0]
    norm_num
  have hk1 : scoreAt [1, 1] [1, 1] ["ccc"] ["aaa", "bbb"] 1 = 1 := by
    simp [scoreAt, hcp1]
    norm_num
  constructor
  · unfold matchQuery
    rw [if_neg (by decide), if_neg (by decide)]
    rw [hqw]
    have hrange : List.range 2 = [0, 1] := by decide
    simp only [List.length_cons, List.length_nil, topIndices, hrange, sortAsc, insertAsc,
      hk0, hk1]
    norm_num
    simp only [List.take, List.reverse_cons, List.reverse_nil, List.nil_append,
      List.cons_append, List.filterMap]
    simp [matchEntryAt, hk0, hk1, tieProductA, tieProductB]
    norm_num
  · rw [hqw, hk0, hk1]

end DutchBros
